import Mathlib

/-!
Verification of the BGP update-decoding engine (`src/pkg/bgp_engine.go`,
`src/pkg/bgp_update_message.go`) against its natural-language specification.

The core under verification is the body of the `WatchEvent` callback inside
`BGPService.MonitorPrefixes` (bgp_engine.go lines 118-243): for each observed
path it builds one `BGPUpdateMessage` record from the path's metadata, its
attribute list, its reachability record and its validation state.  That
per-path computation is pure (it reads only the path event and writes only
the fresh record), so it is embedded below as the total function
`buildUpdate : PathEvent → BGPUpdateMessage`.

Modelling conventions:
  * Go `uint8`/`uint16`/`uint32` values are `Nat`s; the only casts the code
    performs, `uint8(origin.Origin)` and `uint8(nlri.PrefixLen)`, are
    embedded as `% 256`.
  * Go `net.IP` is a byte slice whose zero value is `nil`; it is embedded as
    `List Nat`, with `[]` standing for both `nil` and the empty
    `net.IP{}` (Go treats both as the degenerate "no address" value).
  * A protobuf `Any` attribute record is embedded as the closed sum
    `PathAttr`: `attr.UnmarshalTo(x)` succeeds exactly when the `Any`'s
    payload type is `x`'s message type, so each attribute record matches at
    most one of the nine `if` branches of the extraction loop; an `Any`
    carrying any other message type (constructors `mpReach`, `mpUnreach`,
    `unknown`) matches none of them.
  * `path.GetValidation()` is a protobuf getter: when the `Validation`
    message is absent it returns `nil`, and `GetState()` on `nil` returns
    the zero enum value `0`.  The event therefore carries
    `validation : Option Int` and the code's read of the state is
    `(Option.getD v 0)`.
  * `path.GetNlri().UnmarshalTo(&nlri)` succeeds exactly when the path's
    reachability record is present and holds an `api.IPAddressPrefix`;
    the event models this as `Option IPAddressPrefixMsg` (`none` covers
    both an absent and a malformed/foreign-typed record).
-/

/-- Go `net.IP` modelled as a list of byte values; `[]` is the zero value
(`nil`), which `net.ParseIP` returns on unparsable input. -/
def zeroIP : List Nat := []

/-- One dotted-quad component for the `net.ParseIP` model: a nonempty,
all-digit run of at most 3 characters, no leading zero, value at most 255
(the stdlib rules for IPv4 fields). -/
def parseOctet (cs : List Char) : Option Nat :=
  if cs = [] then none
  else if cs.length > 3 then none
  else if ¬ cs.all Char.isDigit then none
  else if cs.length > 1 ∧ cs.headI = '0' then none
  else
    let n := cs.foldl (fun a c => a * 10 + (c.toNat - 48)) 0
    if n ≤ 255 then some n else none

/-- Executable model of the external stdlib collaborator `net.ParseIP`,
restricted to the dotted-quad IPv4 form (the textual form the engine hands
over for the address-family the monitor subscribes to).  Returns the four
octets on success and `none` on unparsable input. -/
def parseIPv4 (s : String) : Option (List Nat) :=
  let parts := s.data.splitOn '.'
  if parts.length = 4 then parts.mapM parseOctet else none

/-- Model of `net.ParseIP` as the code uses it: the parsed address, or the
zero value `nil` (here `zeroIP`) when the input is unparsable. -/
def netParseIP (s : String) : List Nat :=
  match parseIPv4 s with
  | some bs => bs
  | none => zeroIP

/-- bgp_engine.go line 14: `RpkiValid = 0`. -/
def RpkiValid : Int := 0

/-- bgp_engine.go line 15: `RpkiNotFound = 1`. -/
def RpkiNotFound : Int := 1

/-- bgp_engine.go line 16: `RpkiInvalid = 2`. -/
def RpkiInvalid : Int := 2

/-- The community rendering of bgp_engine.go lines 188-190:
`asn := c >> 16; local := c & 0xFFFF; fmt.Sprintf("%d:%d", asn, local)`. -/
def decodeCommunity (c : Nat) : String :=
  toString (c >>> 16) ++ ":" ++ toString (c &&& 0xFFFF)

/-- The `api.IPAddressPrefix` protobuf message (fields `PrefixLen uint32`,
and the textual address field). -/
structure IPAddressPrefixMsg where
  prefixLen : Nat
  prefixStr : String
deriving DecidableEq, Repr

/-- One entry of `path.GetPattrs()`: a protobuf `Any` record, classified by
the message type it carries.  The nine known kinds are the nine
`UnmarshalTo` targets of the extraction loop (bgp_engine.go lines 165-211).
`mpReach`/`mpUnreach` are the multiprotocol attribute messages
(`api.MpReachNLRIAttribute` / `api.MpUnreachNLRIAttribute`), which match
none of the nine targets; `unknown` is any other message type, carrying its
type URL and raw payload bytes. -/
inductive PathAttr where
  | nextHopA (nh : String)
  | originA (o : Nat)
  | medA (m : Nat)
  | localPrefA (l : Nat)
  | aggregatorA (asn : Nat) (address : String)
  | communitiesA (cs : List Nat)
  | extCommunitiesA (cs : List (Option (List Nat)))
  | largeCommunitiesA (cs : List (Nat × Nat × Nat))
  | asPathA (segments : List (List Nat))
  | mpReach (afi : Nat) (safi : Nat) (nextHop : String)
      (nlris : List (Nat × String))
  | mpUnreach (afi : Nat) (safi : Nat) (nlris : List (Nat × String))
  | unknown (typeUrl : String) (value : List Nat)
deriving DecidableEq, Repr

/-- The `MPReachNLRI` sub-struct of `BGPUpdateMessage`
(bgp_update_message.go): AFI, SAFI, next hop, and a prefix list. -/
structure MPReachRec where
  AFI : Nat
  SAFI : Nat
  NextHop : List Nat
  NLRIs : List (Nat × List Nat)
deriving DecidableEq, Repr

/-- The `MPUnreachNLRI` sub-struct of `BGPUpdateMessage`. -/
structure MPUnreachRec where
  AFI : Nat
  SAFI : Nat
  NLRIs : List (Nat × List Nat)
deriving DecidableEq, Repr

/-- The zero value assigned to `update.MPReachNLRI`
(bgp_engine.go lines 146-154). -/
def emptyMPReach : MPReachRec :=
  { AFI := 0, SAFI := 0, NextHop := [], NLRIs := [] }

/-- The zero value assigned to `update.MPUnreachNLRI`
(bgp_engine.go lines 155-162). -/
def emptyMPUnreach : MPUnreachRec :=
  { AFI := 0, SAFI := 0, NLRIs := [] }

/-- The `BGPUpdateMessage` struct of bgp_update_message.go.  Pointer-typed
Go fields (`*uint8`, `*uint32`, `*string`) become `Option`; slice-of-pair
fields (`WithdrawnRoutes`, `NLRI`) become lists of
(prefix length, address) pairs.  The two wire-length bookkeeping fields
(`WithdrawnRoutesLength`, `TotalPathAttributeLength`) and the
`AtomicAggregate` flag are never written by the monitor and carry no claim,
so they are omitted. -/
structure BGPUpdateMessage where
  WithdrawnRoutes : List (Nat × List Nat)
  Origin : Option Nat
  ASPath : List (List Nat)
  NextHop : List Nat
  MED : Option Nat
  LocalPref : Option Nat
  AggregatorAS : Option Nat
  AggregatorAddress : List Nat
  Communities : List Nat
  CommunityStrings : List String
  ExtendedCommunities : List (List Nat)
  LargeCommunities : List (Nat × Nat × Nat)
  RPKIValidationState : Option String
  MPReachNLRI : MPReachRec
  MPUnreachNLRI : MPUnreachRec
  NLRI : List (Nat × List Nat)
  IsWithdraw : Bool
  FromPeer : String
  Timestamp : Int
deriving DecidableEq, Repr

/-- One observed path event, as delivered to the `WatchEvent` callback:
`path.GetNeighborIp()`, `path.GetAge().GetSeconds()`, `path.IsWithdraw`,
`path.GetPattrs()`, `path.GetNlri()` (decoded, `none` when absent or not an
`api.IPAddressPrefix`), and `path.GetValidation()` (`none` when the
validation message is absent, otherwise its state code). -/
structure PathEvent where
  neighborIp : String
  ageSeconds : Int
  isWithdraw : Bool
  pattrs : List PathAttr
  nlri : Option IPAddressPrefixMsg
  validation : Option Int
deriving DecidableEq, Repr

/-- bgp_engine.go lines 121-162: the fresh record with metadata copied from
the path and every other field explicitly zero/empty/nil-initialized. -/
def initUpdate (p : PathEvent) : BGPUpdateMessage :=
  { WithdrawnRoutes := []
    Origin := none
    ASPath := []
    NextHop := []
    MED := none
    LocalPref := none
    AggregatorAS := none
    AggregatorAddress := []
    Communities := []
    CommunityStrings := []
    ExtendedCommunities := []
    LargeCommunities := []
    RPKIValidationState := none
    MPReachNLRI := emptyMPReach
    MPUnreachNLRI := emptyMPUnreach
    NLRI := []
    IsWithdraw := p.isWithdraw
    FromPeer := p.neighborIp
    Timestamp := p.ageSeconds }

/-- The body of the attribute-extraction loop (bgp_engine.go lines
165-211) for a single attribute record.  Each branch corresponds to one
`if attr.UnmarshalTo(...) == nil` block, in source order; an `Any` matches
at most one branch, so the nine `if`s collapse to a `match`.  Note the
source's asymmetry for communities: `Communities` is overwritten by
assignment while `CommunityStrings` is extended by `append`; extended/large
communities and AS-path segments are all extended by `append`;
multiprotocol and unknown records match no branch and leave the record
unchanged. -/
def applyAttr (u : BGPUpdateMessage) (a : PathAttr) : BGPUpdateMessage :=
  match a with
  | .nextHopA nh => { u with NextHop := netParseIP nh }
  | .originA o => { u with Origin := some (o % 256) }
  | .medA m => { u with MED := some m }
  | .localPrefA l => { u with LocalPref := some l }
  | .aggregatorA asn address =>
      { u with AggregatorAS := some asn
               AggregatorAddress := netParseIP address }
  | .communitiesA cs =>
      { u with Communities := cs
               CommunityStrings :=
                 u.CommunityStrings ++ cs.map decodeCommunity }
  | .extCommunitiesA cs =>
      { u with ExtendedCommunities :=
                 u.ExtendedCommunities ++ cs.filterMap id }
  | .largeCommunitiesA cs =>
      { u with LargeCommunities := u.LargeCommunities ++ cs }
  | .asPathA segments => { u with ASPath := u.ASPath ++ segments }
  | .mpReach _ _ _ _ => u
  | .mpUnreach _ _ _ => u
  | .unknown _ _ => u

/-- bgp_engine.go lines 213-223: if the path's reachability record decodes
as an `api.IPAddressPrefix`, append `(uint8(nlri.PrefixLen),
net.ParseIP(nlri.Prefix))` to `update.NLRI`; otherwise (`err != nil`) leave
the record untouched — no error is raised either way. -/
def extractNLRI (u : BGPUpdateMessage) (n : Option IPAddressPrefixMsg) :
    BGPUpdateMessage :=
  match n with
  | some pfx =>
      { u with NLRI := u.NLRI ++ [(pfx.prefixLen % 256, netParseIP pfx.prefixStr)] }
  | none => u

/-- The `switch path.GetValidation().GetState()` table of bgp_engine.go
lines 226-236, factored as a function of the integer state code, with the
cases in source order (`RpkiValid`, `RpkiInvalid`, `RpkiNotFound`) and the
implicit default (no state recorded). -/
def mapState (code : Int) : Option String :=
  if code = RpkiValid then some "valid"
  else if code = RpkiInvalid then some "invalid"
  else if code = RpkiNotFound then some "not-found"
  else none

/-- Applying the validation switch to the record: the scrutinee is
`path.GetValidation().GetState()`, i.e. the state code when the validation
message is present and the protobuf zero value `0` when it is absent. -/
def applyValidation (u : BGPUpdateMessage) (v : Option Int) :
    BGPUpdateMessage :=
  match mapState (v.getD 0) with
  | some s => { u with RPKIValidationState := some s }
  | none => u

/-- The whole per-path body of the `MonitorPrefixes` callback
(bgp_engine.go lines 121-236): initialize, fold the extraction loop over
the attribute list, extract the base NLRI, then apply the validation
switch.  Total by construction — the Go code raises no error on any input
(every failure branch is a silent skip). -/
def buildUpdate (p : PathEvent) : BGPUpdateMessage :=
  applyValidation (extractNLRI (p.pattrs.foldl applyAttr (initUpdate p)) p.nlri)
    p.validation

/-- Insertion of an attribute record at a given position of an attribute
list (position past the end appends at the end), used to state the
unknown-attribute isolation property. -/
def insertAttrAt (a : PathAttr) : Nat → List PathAttr → List PathAttr
  | 0, l => a :: l
  | _ + 1, [] => [a]
  | n + 1, x :: xs => x :: insertAttrAt a n xs

/-- The AS-path segments an attribute record encodes: the segment list of
an AS-path attribute, and nothing for any other kind (bgp_engine.go lines
206-210 append exactly these, in order). -/
def asPathSegmentsOf (a : PathAttr) : List (List Nat) :=
  match a with
  | .asPathA segments => segments
  | _ => []

/-- A pure-withdrawal event: `isWithdraw` set and the route being
withdrawn (10.1.0.0/24) carried in the path's reachability record — the
only place the engine delivers a withdrawn route's prefix. -/
def evC1 : PathEvent :=
  { neighborIp := "198.51.100.7", ageSeconds := 42, isWithdraw := true,
    pattrs := [], nlri := some { prefixLen := 24, prefixStr := "10.1.0.0" },
    validation := some 1 }

/-- An event whose attribute list carries two communities attributes:
`[131082]` (= 0x0002000A) followed by `[65538]` (= 0x00010002). -/
def evC2 : PathEvent :=
  { neighborIp := "198.51.100.8", ageSeconds := 43, isWithdraw := false,
    pattrs := [PathAttr.communitiesA [131082], PathAttr.communitiesA [65538]],
    nlri := none, validation := some 1 }

/-- An event for which the engine reported no validation state at all
(the validation message of the path is absent). -/
def evC3 : PathEvent :=
  { neighborIp := "198.51.100.9", ageSeconds := 44, isWithdraw := false,
    pattrs := [], nlri := none, validation := none }

/-- Witness event for the amended C3, missing-validation half. -/
def evW3a : PathEvent :=
  { neighborIp := "198.51.100.10", ageSeconds := 45, isWithdraw := false,
    pattrs := [], nlri := none, validation := none }

/-- Witness event for the amended C3, unrecognized-code half (code 7). -/
def evW3b : PathEvent :=
  { neighborIp := "198.51.100.11", ageSeconds := 46, isWithdraw := false,
    pattrs := [], nlri := none, validation := some 7 }

/-- An event carrying well-formed multiprotocol reach and unreach
attribute records (IPv6 unicast reach with a next hop and one prefix, and
an unreach with one prefix). -/
def evC6 : PathEvent :=
  { neighborIp := "198.51.100.12", ageSeconds := 47, isWithdraw := false,
    pattrs := [PathAttr.mpReach 2 1 "2001:db8::1" [(64, "2001:db8::")],
               PathAttr.mpUnreach 2 1 [(48, "2001:db8:1::")]],
    nlri := none, validation := some 1 }

/-- Witness event for C8: an attribute list encoding the AS-path segments
`[[65001, 65002], [65003]]` in a single AS-path attribute. -/
def evW8 : PathEvent :=
  { neighborIp := "203.0.113.9", ageSeconds := 5, isWithdraw := false,
    pattrs := [PathAttr.originA 0,
               PathAttr.asPathA [[65001, 65002], [65003]]],
    nlri := none, validation := some 1 }

/-- An event whose aggregator attribute carries an address string that
`net.ParseIP` cannot parse. -/
def evC9 : PathEvent :=
  { neighborIp := "198.51.100.13", ageSeconds := 48, isWithdraw := false,
    pattrs := [PathAttr.aggregatorA 65000 "not-an-ip"],
    nlri := none, validation := some 1 }

/-- Witness event for the amended C9: no aggregator attribute at all. -/
def evW9 : PathEvent :=
  { neighborIp := "198.51.100.14", ageSeconds := 49, isWithdraw := false,
    pattrs := [PathAttr.originA 0], nlri := none, validation := some 1 }

/-- Witness event for C10: reachability record absent (or of a foreign
message type, which the code treats identically). -/
def evW10a : PathEvent :=
  { neighborIp := "198.51.100.15", ageSeconds := 50, isWithdraw := false,
    pattrs := [], nlri := none, validation := some 1 }

/-- Witness event for C10: reachability record present but its prefix
address text is unparsable. -/
def evW10b : PathEvent :=
  { neighborIp := "198.51.100.16", ageSeconds := 51, isWithdraw := false,
    pattrs := [], nlri := some { prefixLen := 24, prefixStr := "zz" },
    validation := some 1 }

/-- Witness event for C7: a decoded attribute list into which an unknown
attribute will be inserted. -/
def evW7 : PathEvent :=
  { neighborIp := "198.51.100.17", ageSeconds := 52, isWithdraw := false,
    pattrs := [PathAttr.originA 0, PathAttr.communitiesA [131082]],
    nlri := some { prefixLen := 16, prefixStr := "10.2.0.0" },
    validation := some 0 }

/-! Field-preservation lemmas: which pipeline stages leave which record
fields untouched.  Each follows by case analysis on the attribute kind or
on the optional argument. -/

theorem applyAttr_WithdrawnRoutes (u : BGPUpdateMessage) (a : PathAttr) :
    (applyAttr u a).WithdrawnRoutes = u.WithdrawnRoutes := by
  cases a <;> rfl

theorem applyAttr_IsWithdraw (u : BGPUpdateMessage) (a : PathAttr) :
    (applyAttr u a).IsWithdraw = u.IsWithdraw := by
  cases a <;> rfl

theorem applyAttr_MPReach (u : BGPUpdateMessage) (a : PathAttr) :
    (applyAttr u a).MPReachNLRI = u.MPReachNLRI := by
  cases a <;> rfl

theorem applyAttr_MPUnreach (u : BGPUpdateMessage) (a : PathAttr) :
    (applyAttr u a).MPUnreachNLRI = u.MPUnreachNLRI := by
  cases a <;> rfl

theorem applyAttr_RPKI (u : BGPUpdateMessage) (a : PathAttr) :
    (applyAttr u a).RPKIValidationState = u.RPKIValidationState := by
  cases a <;> rfl

theorem applyAttr_NLRI (u : BGPUpdateMessage) (a : PathAttr) :
    (applyAttr u a).NLRI = u.NLRI := by
  cases a <;> rfl

theorem applyAttr_ASPath (u : BGPUpdateMessage) (a : PathAttr) :
    (applyAttr u a).ASPath = u.ASPath ++ asPathSegmentsOf a := by
  cases a <;> simp [applyAttr, asPathSegmentsOf]

theorem foldl_WithdrawnRoutes :
    ∀ (L : List PathAttr) (u : BGPUpdateMessage),
      (L.foldl applyAttr u).WithdrawnRoutes = u.WithdrawnRoutes
  | [], _ => rfl
  | a :: L, u => by
      rw [List.foldl_cons, foldl_WithdrawnRoutes L, applyAttr_WithdrawnRoutes]

theorem foldl_IsWithdraw :
    ∀ (L : List PathAttr) (u : BGPUpdateMessage),
      (L.foldl applyAttr u).IsWithdraw = u.IsWithdraw
  | [], _ => rfl
  | a :: L, u => by
      rw [List.foldl_cons, foldl_IsWithdraw L, applyAttr_IsWithdraw]

theorem foldl_MPReach :
    ∀ (L : List PathAttr) (u : BGPUpdateMessage),
      (L.foldl applyAttr u).MPReachNLRI = u.MPReachNLRI
  | [], _ => rfl
  | a :: L, u => by
      rw [List.foldl_cons, foldl_MPReach L, applyAttr_MPReach]

theorem foldl_MPUnreach :
    ∀ (L : List PathAttr) (u : BGPUpdateMessage),
      (L.foldl applyAttr u).MPUnreachNLRI = u.MPUnreachNLRI
  | [], _ => rfl
  | a :: L, u => by
      rw [List.foldl_cons, foldl_MPUnreach L, applyAttr_MPUnreach]

theorem foldl_RPKI :
    ∀ (L : List PathAttr) (u : BGPUpdateMessage),
      (L.foldl applyAttr u).RPKIValidationState = u.RPKIValidationState
  | [], _ => rfl
  | a :: L, u => by
      rw [List.foldl_cons, foldl_RPKI L, applyAttr_RPKI]

theorem foldl_NLRI :
    ∀ (L : List PathAttr) (u : BGPUpdateMessage),
      (L.foldl applyAttr u).NLRI = u.NLRI
  | [], _ => rfl
  | a :: L, u => by
      rw [List.foldl_cons, foldl_NLRI L, applyAttr_NLRI]

theorem foldl_ASPath :
    ∀ (L : List PathAttr) (u : BGPUpdateMessage),
      (L.foldl applyAttr u).ASPath = u.ASPath ++ (L.map asPathSegmentsOf).flatten
  | [], u => by simp
  | a :: L, u => by
      rw [List.foldl_cons, foldl_ASPath L, applyAttr_ASPath]
      simp

theorem extractNLRI_WithdrawnRoutes (u : BGPUpdateMessage)
    (n : Option IPAddressPrefixMsg) :
    (extractNLRI u n).WithdrawnRoutes = u.WithdrawnRoutes := by
  cases n <;> rfl

theorem extractNLRI_IsWithdraw (u : BGPUpdateMessage)
    (n : Option IPAddressPrefixMsg) :
    (extractNLRI u n).IsWithdraw = u.IsWithdraw := by
  cases n <;> rfl

theorem extractNLRI_MPReach (u : BGPUpdateMessage)
    (n : Option IPAddressPrefixMsg) :
    (extractNLRI u n).MPReachNLRI = u.MPReachNLRI := by
  cases n <;> rfl

theorem extractNLRI_MPUnreach (u : BGPUpdateMessage)
    (n : Option IPAddressPrefixMsg) :
    (extractNLRI u n).MPUnreachNLRI = u.MPUnreachNLRI := by
  cases n <;> rfl

theorem extractNLRI_RPKI (u : BGPUpdateMessage)
    (n : Option IPAddressPrefixMsg) :
    (extractNLRI u n).RPKIValidationState = u.RPKIValidationState := by
  cases n <;> rfl

theorem extractNLRI_ASPath (u : BGPUpdateMessage)
    (n : Option IPAddressPrefixMsg) :
    (extractNLRI u n).ASPath = u.ASPath := by
  cases n <;> rfl

theorem extractNLRI_AggregatorAS (u : BGPUpdateMessage)
    (n : Option IPAddressPrefixMsg) :
    (extractNLRI u n).AggregatorAS = u.AggregatorAS := by
  cases n <;> rfl

theorem extractNLRI_AggregatorAddress (u : BGPUpdateMessage)
    (n : Option IPAddressPrefixMsg) :
    (extractNLRI u n).AggregatorAddress = u.AggregatorAddress := by
  cases n <;> rfl

theorem applyValidation_WithdrawnRoutes (u : BGPUpdateMessage)
    (v : Option Int) :
    (applyValidation u v).WithdrawnRoutes = u.WithdrawnRoutes := by
  unfold applyValidation
  cases mapState (v.getD 0) <;> rfl

theorem applyValidation_IsWithdraw (u : BGPUpdateMessage) (v : Option Int) :
    (applyValidation u v).IsWithdraw = u.IsWithdraw := by
  unfold applyValidation
  cases mapState (v.getD 0) <;> rfl

theorem applyValidation_MPReach (u : BGPUpdateMessage) (v : Option Int) :
    (applyValidation u v).MPReachNLRI = u.MPReachNLRI := by
  unfold applyValidation
  cases mapState (v.getD 0) <;> rfl

theorem applyValidation_MPUnreach (u : BGPUpdateMessage) (v : Option Int) :
    (applyValidation u v).MPUnreachNLRI = u.MPUnreachNLRI := by
  unfold applyValidation
  cases mapState (v.getD 0) <;> rfl

theorem applyValidation_NLRI (u : BGPUpdateMessage) (v : Option Int) :
    (applyValidation u v).NLRI = u.NLRI := by
  unfold applyValidation
  cases mapState (v.getD 0) <;> rfl

theorem applyValidation_ASPath (u : BGPUpdateMessage) (v : Option Int) :
    (applyValidation u v).ASPath = u.ASPath := by
  unfold applyValidation
  cases mapState (v.getD 0) <;> rfl

theorem applyValidation_AggregatorAS (u : BGPUpdateMessage)
    (v : Option Int) :
    (applyValidation u v).AggregatorAS = u.AggregatorAS := by
  unfold applyValidation
  cases mapState (v.getD 0) <;> rfl

theorem applyValidation_AggregatorAddress (u : BGPUpdateMessage)
    (v : Option Int) :
    (applyValidation u v).AggregatorAddress = u.AggregatorAddress := by
  unfold applyValidation
  cases mapState (v.getD 0) <;> rfl

/-! Record-level consequences of the pipeline shape. -/

theorem buildUpdate_WithdrawnRoutes (p : PathEvent) :
    (buildUpdate p).WithdrawnRoutes = [] := by
  unfold buildUpdate
  rw [applyValidation_WithdrawnRoutes, extractNLRI_WithdrawnRoutes,
    foldl_WithdrawnRoutes]
  rfl

theorem buildUpdate_IsWithdraw (p : PathEvent) :
    (buildUpdate p).IsWithdraw = p.isWithdraw := by
  unfold buildUpdate
  rw [applyValidation_IsWithdraw, extractNLRI_IsWithdraw, foldl_IsWithdraw]
  rfl

theorem buildUpdate_MPReach (p : PathEvent) :
    (buildUpdate p).MPReachNLRI = emptyMPReach := by
  unfold buildUpdate
  rw [applyValidation_MPReach, extractNLRI_MPReach, foldl_MPReach]
  rfl

theorem buildUpdate_MPUnreach (p : PathEvent) :
    (buildUpdate p).MPUnreachNLRI = emptyMPUnreach := by
  unfold buildUpdate
  rw [applyValidation_MPUnreach, extractNLRI_MPUnreach, foldl_MPUnreach]
  rfl

theorem buildUpdate_RPKI (p : PathEvent) :
    (buildUpdate p).RPKIValidationState = mapState (p.validation.getD 0) := by
  unfold buildUpdate applyValidation
  cases h : mapState (p.validation.getD 0) with
  | none =>
      rw [extractNLRI_RPKI, foldl_RPKI]
      rfl
  | some s => rfl

theorem buildUpdate_NLRI (p : PathEvent) :
    (buildUpdate p).NLRI =
      match p.nlri with
      | some pfx => [(pfx.prefixLen % 256, netParseIP pfx.prefixStr)]
      | none => [] := by
  unfold buildUpdate
  rw [applyValidation_NLRI]
  cases p.nlri with
  | none =>
      rw [extractNLRI, foldl_NLRI]
      rfl
  | some pfx =>
      show ((p.pattrs.foldl applyAttr (initUpdate p)).NLRI ++ _) = _
      rw [foldl_NLRI]
      rfl

/-! Claim theorems. -/

/-- C1, counterexample.  `evC1` is a pure-withdrawal event
(`isWithdraw = true`) whose withdrawn route list is the nonempty
`[(24, 10.1.0.0)]` — carried, as the engine delivers it, in the path's
reachability record, where the decoder demonstrably sees it (it lands in
`NLRI`).  The claim says the built record's `withdrawnRoutes` equals that
list element-for-element; in fact it is `[]`. -/
theorem c1_counterexample :
    evC1.isWithdraw = true ∧
    (buildUpdate evC1).NLRI = [(24, [10, 1, 0, 0])] ∧
    (buildUpdate evC1).IsWithdraw = true ∧
    (buildUpdate evC1).WithdrawnRoutes = [] ∧
    (buildUpdate evC1).WithdrawnRoutes ≠ [(24, [10, 1, 0, 0])] := by
  decide

/-- C1, amended: for every event the built record's `isWithdraw` equals the
event's withdrawal flag, but `withdrawnRoutes` is always left empty — the
monitor never populates it; a withdrawn prefix appears (via the
reachability record) in `nlri` instead. -/
theorem c1_withdraw_amended (p : PathEvent) :
    (buildUpdate p).IsWithdraw = p.isWithdraw ∧
    (buildUpdate p).WithdrawnRoutes = [] :=
  ⟨buildUpdate_IsWithdraw p, buildUpdate_WithdrawnRoutes p⟩

/-- C2, code bug.  On the attribute list
`[communities [131082], communities [65538]]` the decoder overwrites
`Communities` (plain assignment, bgp_engine.go line 186) but extends
`CommunityStrings` (append, line 190), so the two parallel sequences end
with different lengths (1 vs 2) and the surviving `Communities` entry
`65538` is not the one the first `CommunityStrings` entry "2:10" decodes.
The claim (equal length, matching order, "in particular" with more than
one communities attribute) is violated. -/
theorem c2_parallel_lengths_bug :
    (buildUpdate evC2).Communities = [65538] ∧
    (buildUpdate evC2).CommunityStrings = ["2:10", "1:2"] ∧
    (buildUpdate evC2).Communities.length ≠
      (buildUpdate evC2).CommunityStrings.length := by
  decide

/-- C3, counterexample.  `evC3` is an event for which the engine reported
no validation state (the validation message is absent).  The claim says
`rpkiValidationState` is then absent; in fact the protobuf getter chain
`path.GetValidation().GetState()` reads the missing message as state code
`0`, so the record gets state `valid`. -/
theorem c3_counterexample :
    evC3.validation = none ∧
    (buildUpdate evC3).RPKIValidationState = some "valid" := by
  decide

/-- C3, amended: when the event's validation code is an unrecognized
integer the built record's `rpkiValidationState` is absent, but when the
engine reported no validation state at all the missing message reads as
code 0 and the state is set to `valid`. -/
theorem c3_rpki_amended (p : PathEvent) (c : Int) :
    (p.validation = none →
      (buildUpdate p).RPKIValidationState = some "valid") ∧
    (p.validation = some c → c ≠ 0 → c ≠ 1 → c ≠ 2 →
      (buildUpdate p).RPKIValidationState = none) := by
  constructor
  · intro h
    rw [buildUpdate_RPKI, h]
    rfl
  · intro h h0 h1 h2
    rw [buildUpdate_RPKI, h]
    simp [mapState, RpkiValid, RpkiInvalid, RpkiNotFound, h0, h1, h2]

/-- Witness for the amended C3, applying it to a concrete event with no
validation state (`evW3a`) and to one with the unrecognized code 7
(`evW3b`). -/
theorem c3_rpki_amended_witness :
    (buildUpdate evW3a).RPKIValidationState = some "valid" ∧
    (buildUpdate evW3b).RPKIValidationState = none :=
  ⟨(c3_rpki_amended evW3a 0).1 rfl,
   (c3_rpki_amended evW3b 7).2 rfl (by decide) (by decide) (by decide)⟩

/-- C5: the validation-state table of bgp_engine.go lines 226-236, as a
function of the integer code: 0 maps to valid, 1 to not-found, 2 to
invalid, and every other integer (negative values included) to absent —
the switch has no default arm and raises nothing. -/
theorem c5_mapState_table :
    mapState 0 = some "valid" ∧ mapState 1 = some "not-found" ∧
    mapState 2 = some "invalid" ∧
    ∀ c : Int, c ≠ 0 → c ≠ 1 → c ≠ 2 → mapState c = none := by
  refine ⟨by decide, by decide, by decide, ?_⟩
  intro c h0 h1 h2
  simp [mapState, RpkiValid, RpkiInvalid, RpkiNotFound, h0, h1, h2]

/-- Witness for C5, applying the table at the out-of-range code `-5`. -/
theorem c5_mapState_table_witness : mapState (-5) = none :=
  c5_mapState_table.2.2.2 (-5) (by decide) (by decide) (by decide)

/-- C6, counterexample.  `evC6` carries well-formed multiprotocol reach
and unreach attribute records, yet the built record's `MPReachNLRI` and
`MPUnreachNLRI` are left exactly at their zero/empty state — the claim
says that for such an input they are populated. -/
theorem c6_counterexample :
    (buildUpdate evC6).MPReachNLRI = emptyMPReach ∧
    (buildUpdate evC6).MPUnreachNLRI = emptyMPUnreach ∧
    (buildUpdate evC6).MPReachNLRI.NLRIs = [] ∧
    (buildUpdate evC6).MPUnreachNLRI.NLRIs = [] := by
  decide

/-- C6, amended: the monitor never decodes multiprotocol attributes — for
every event, `mpReachNLRI` and `mpUnreachNLRI` are left at the zero/empty
state they are initialized to (bgp_engine.go lines 146-162; no
`UnmarshalTo` branch targets the multiprotocol attribute messages). -/
theorem c6_mp_never_populated (p : PathEvent) :
    (buildUpdate p).MPReachNLRI = emptyMPReach ∧
    (buildUpdate p).MPUnreachNLRI = emptyMPUnreach :=
  ⟨buildUpdate_MPReach p, buildUpdate_MPUnreach p⟩

/-- C4: for every 32-bit `raw`, `decodeCommunity` renders exactly
`"{high16}:{low16}"` in decimal, where the shift/mask pair the code
computes coincides with the quotient/remainder by 2^16, and both halves
fit in 16 bits; being a Lean function of `Nat` it is pure and total, with
no failure branch to take. -/
theorem c4_decodeCommunity_spec (raw : Nat) (h : raw < 4294967296) :
    decodeCommunity raw =
      toString (raw / 65536) ++ ":" ++ toString (raw % 65536) ∧
    raw / 65536 < 65536 ∧ raw % 65536 < 65536 := by
  have h1 : raw >>> 16 = raw / 65536 := by
    rw [Nat.shiftRight_eq_div_pow]
  have h2 : raw &&& 0xFFFF = raw % 65536 := by
    have h3 := Nat.and_pow_two_sub_one_eq_mod raw 16
    norm_num at h3
    exact h3
  refine ⟨?_, ?_, Nat.mod_lt _ (by norm_num)⟩
  · unfold decodeCommunity
    rw [h1, h2]
  · have hb : raw < 65536 * 65536 := by omega
    exact Nat.div_lt_of_lt_mul hb

/-- Witness for C4 at the spec's example input `0x0001000A` = 65546. -/
theorem c4_decodeCommunity_spec_witness : decodeCommunity 65546 = "1:10" := by
  have h := (c4_decodeCommunity_spec 65546 (by norm_num)).1
  rw [h]
  decide

/-- An attribute record of an unrecognized kind matches none of the nine
`UnmarshalTo` targets, so the loop body leaves the record unchanged. -/
theorem applyAttr_unknown (u : BGPUpdateMessage) (t : String)
    (v : List Nat) : applyAttr u (PathAttr.unknown t v) = u := rfl

theorem foldl_insertAttrAt_unknown (t : String) (v : List Nat) :
    ∀ (i : Nat) (L : List PathAttr) (u : BGPUpdateMessage),
      (insertAttrAt (PathAttr.unknown t v) i L).foldl applyAttr u =
        L.foldl applyAttr u
  | 0, _, _ => rfl
  | _ + 1, [], _ => rfl
  | i + 1, x :: xs, u => by
      show (insertAttrAt (PathAttr.unknown t v) i xs).foldl applyAttr
          (applyAttr u x) = _
      rw [foldl_insertAttrAt_unknown t v i xs (applyAttr u x)]
      rfl

/-- C7: inserting an attribute record of an unrecognized kind (any type
URL, any payload) at any position of the attribute list leaves the built
record identical — unknown attributes are dropped silently and affect no
other field's decoding, and nothing is raised (`buildUpdate` is total). -/
theorem c7_unknown_isolation (p : PathEvent) (i : Nat) (t : String)
    (v : List Nat) :
    buildUpdate
        { p with pattrs := insertAttrAt (PathAttr.unknown t v) i p.pattrs } =
      buildUpdate p := by
  show applyValidation
      (extractNLRI
        ((insertAttrAt (PathAttr.unknown t v) i p.pattrs).foldl applyAttr
          (initUpdate p))
        p.nlri)
      p.validation = buildUpdate p
  rw [foldl_insertAttrAt_unknown]
  rfl

/-- C8: if an attribute list encodes the AS-path segment sequence `segs`
(the concatenation, in list order, of the segment lists of its AS-path
attributes), the built record's `ASPath` is exactly `segs` — segment order
and in-segment AS-number order both preserved. -/
theorem c8_asPath_order (p : PathEvent) (segs : List (List Nat))
    (h : (p.pattrs.map asPathSegmentsOf).flatten = segs) :
    (buildUpdate p).ASPath = segs := by
  have h1 : (buildUpdate p).ASPath
      = (p.pattrs.foldl applyAttr (initUpdate p)).ASPath := by
    unfold buildUpdate
    rw [applyValidation_ASPath, extractNLRI_ASPath]
  rw [h1, foldl_ASPath]
  rw [show (initUpdate p).ASPath = [] from rfl, List.nil_append]
  exact h

/-- Witness for C8 at an attribute list encoding the spec's example
segments `[[65001, 65002], [65003]]`. -/
theorem c8_asPath_order_witness :
    (buildUpdate evW8).ASPath = [[65001, 65002], [65003]] :=
  c8_asPath_order evW8 [[65001, 65002], [65003]] (by decide)

theorem applyAttr_agg_inv (u : BGPUpdateMessage) (a : PathAttr)
    (h : u.AggregatorAS = none → u.AggregatorAddress = zeroIP) :
    (applyAttr u a).AggregatorAS = none →
      (applyAttr u a).AggregatorAddress = zeroIP := by
  cases a <;>
    first
      | exact h
      | exact fun hc => Option.noConfusion hc

theorem foldl_agg_inv :
    ∀ (L : List PathAttr) (u : BGPUpdateMessage),
      (u.AggregatorAS = none → u.AggregatorAddress = zeroIP) →
      ((L.foldl applyAttr u).AggregatorAS = none →
        (L.foldl applyAttr u).AggregatorAddress = zeroIP)
  | [], _, h => h
  | a :: L, u, h => foldl_agg_inv L (applyAttr u a) (applyAttr_agg_inv u a h)

/-- C9, counterexample.  On an aggregator attribute whose address string
fails to parse, the built record has `AggregatorAS` present
(`some 65000`) while `AggregatorAddress` is the nil address — exactly one
of the pair is present, which the claim says never happens. -/
theorem c9_counterexample :
    (buildUpdate evC9).AggregatorAS = some 65000 ∧
    (buildUpdate evC9).AggregatorAddress = zeroIP := by
  decide

/-- C9, amended: the pair degenerates in one direction only — whenever
`aggregatorAS` is absent, `aggregatorAddress` is the nil address (both
absent); but an aggregator attribute whose address string fails
`net.ParseIP` yields `aggregatorAS` present with `aggregatorAddress` nil,
so "both present together" fails exactly in that case. -/
theorem c9_aggregator_amended (p : PathEvent)
    (h : (buildUpdate p).AggregatorAS = none) :
    (buildUpdate p).AggregatorAddress = zeroIP := by
  have hAS : (buildUpdate p).AggregatorAS
      = (p.pattrs.foldl applyAttr (initUpdate p)).AggregatorAS := by
    unfold buildUpdate
    rw [applyValidation_AggregatorAS, extractNLRI_AggregatorAS]
  have hAddr : (buildUpdate p).AggregatorAddress
      = (p.pattrs.foldl applyAttr (initUpdate p)).AggregatorAddress := by
    unfold buildUpdate
    rw [applyValidation_AggregatorAddress, extractNLRI_AggregatorAddress]
  rw [hAddr]
  exact foldl_agg_inv p.pattrs (initUpdate p) (fun _ => rfl)
    (hAS.symm.trans h)

/-- Witness for the amended C9 at an event with no aggregator attribute. -/
theorem c9_aggregator_amended_witness :
    (buildUpdate evW9).AggregatorAddress = zeroIP :=
  c9_aggregator_amended evW9 (by decide)

/-- C10: when the path's reachability record is absent or malformed (it
does not decode as an `api.IPAddressPrefix`), the built record's `nlri`
stays empty and nothing is raised; when it decodes but its prefix address
text is unparsable, the stored pair carries the zero (nil) address rather
than a raised error. -/
theorem c10_nlri_error_handling (p : PathEvent) :
    (p.nlri = none → (buildUpdate p).NLRI = []) ∧
    (∀ pfx : IPAddressPrefixMsg, p.nlri = some pfx →
      parseIPv4 pfx.prefixStr = none →
      (buildUpdate p).NLRI = [(pfx.prefixLen % 256, zeroIP)]) := by
  constructor
  · intro h
    rw [buildUpdate_NLRI, h]
  · intro pfx h hp
    rw [buildUpdate_NLRI, h]
    simp [netParseIP, hp]

/-- Witness for C10: an event with no reachability record, and one whose
record carries the unparsable address text "zz". -/
theorem c10_nlri_error_handling_witness :
    (buildUpdate evW10a).NLRI = [] ∧
    (buildUpdate evW10b).NLRI = [(24 % 256, zeroIP)] :=
  ⟨(c10_nlri_error_handling evW10a).1 rfl,
   (c10_nlri_error_handling evW10b).2
     { prefixLen := 24, prefixStr := "zz" } rfl (by decide)⟩

/-- Witness for the amended C1 at the concrete withdrawal event `evC1`. -/
theorem c1_withdraw_amended_witness :
    (buildUpdate evC1).IsWithdraw = evC1.isWithdraw ∧
    (buildUpdate evC1).WithdrawnRoutes = [] :=
  c1_withdraw_amended evC1

/-- Witness for the amended C6 at the concrete multiprotocol event
`evC6`. -/
theorem c6_mp_never_populated_witness :
    (buildUpdate evC6).MPReachNLRI = emptyMPReach ∧
    (buildUpdate evC6).MPUnreachNLRI = emptyMPUnreach :=
  c6_mp_never_populated evC6

/-- Witness for C7: inserting a concrete unknown attribute (type URL
"type.example/Unknown", two payload bytes) at position 1 of `evW7`'s
attribute list leaves the built record unchanged. -/
theorem c7_unknown_isolation_witness :
    buildUpdate
        { evW7 with
          pattrs :=
            insertAttrAt (PathAttr.unknown "type.example/Unknown" [1, 2]) 1
              evW7.pattrs } =
      buildUpdate evW7 :=
  c7_unknown_isolation evW7 1 "type.example/Unknown" [1, 2]
